import Mathlib

/-!
Verification development for the task execution and caching core of the
recruiter-messager repository: a shallow embedding of `tasks.py` (durable
task store), `research_daemon.py` (task processor) and `libjobsearch.py`
(step cache and isolated executor), with theorems settling the spec claims.
-/

/-! ## Embedding of tasks.py -/

/-- `TaskStatus` enum from tasks.py. -/
inductive TaskStatus where
  | pending
  | running
  | completed
  | failed
deriving DecidableEq, Repr

/-- `TaskType` enum from tasks.py: exactly two members. -/
inductive TaskType where
  | company_research
  | generate_reply
deriving DecidableEq, Repr

/-- The `.value` string of a `TaskType` member. -/
def TaskType.value : TaskType → String
  | .company_research => "company_research"
  | .generate_reply => "generate_reply"

/-- Python `TaskType(s)`: returns the member whose value is `s`, or `none`
where Python raises `ValueError` (`s` is not among the enum values). -/
def TaskType.ofString (s : String) : Option TaskType :=
  if s = "company_research" then some .company_research
  else if s = "generate_reply" then some .generate_reply
  else none

/-- A row of the `tasks` table.  `type` is the raw TEXT column (the schema
does not constrain it to the enum values); `args` is the stored JSON text,
kept opaque; `result` and `error` are nullable TEXT columns; timestamps are
modelled as naturals (ISO-8601 strings compare chronologically, so `ORDER BY
created_at` is order on these naturals). -/
structure TaskRow where
  id : String
  type : String
  args : String
  status : TaskStatus
  result : Option String
  error : Option String
  created_at : Nat
  updated_at : Nat
deriving DecidableEq, Repr

/-- The tasks table in rowid (insertion) order. -/
abbrev TaskStore := List TaskRow

/-- A Python dict payload, kept as an association list; only its truthiness
and an injective serialization matter to the store. -/
abbrev PyDict := List (String × String)

/-- `json.dumps` on a dict payload, opaque injective rendering. -/
def json_dumps (d : PyDict) : String := toString (repr d)

/-- `TaskManager.create_task`: INSERT of a fresh row with status pending,
NULL result and error, both timestamps set to now.  The fresh uuid and the
clock are parameters. -/
def create_task (store : TaskStore) (task_id : String) (task_type : TaskType)
    (args : String) (now : Nat) : TaskStore :=
  store ++ [{ id := task_id, type := task_type.value, args := args,
              status := .pending, result := none, error := none,
              created_at := now, updated_at := now }]

/-- The SET clause of `TaskManager.update_task` applied to one matching row:
the result column receives `json.dumps(result) if result else None` (a
`None` or empty dict stores NULL); the error column always receives the
`error` string (whose Python default is `""`); `updated_at` is bumped. -/
def updated_row (row : TaskRow) (status : TaskStatus) (result : Option PyDict)
    (error : String) (now : Nat) : TaskRow :=
  { row with
      status := status,
      result := match result with
        | some d => if d.isEmpty then none else some (json_dumps d)
        | none => none,
      error := some error,
      updated_at := now }

/-- `TaskManager.update_task`: `UPDATE tasks SET status, result, error,
updated_at WHERE id = ?`.  A non-matching id updates zero rows and raises
nothing. -/
def update_task (store : TaskStore) (task_id : String) (status : TaskStatus)
    (result : Option PyDict) (error : String) (now : Nat) : TaskStore :=
  store.map fun row =>
    if row.id = task_id then updated_row row status result error now else row

/-- `TaskManager.get_task`: `SELECT * FROM tasks WHERE id = ?` fetchone,
returning the stored row or `none`. -/
def get_task (store : TaskStore) (task_id : String) : Option TaskRow :=
  store.find? (fun r => r.id = task_id)

/-- The row selected by `SELECT ... WHERE status = pending ORDER BY
created_at ASC LIMIT 1`: the first row in insertion order among pending rows
of minimal `created_at`. -/
def oldest_pending : TaskStore → Option TaskRow
  | [] => none
  | r :: rest =>
    match oldest_pending rest with
    | none => if r.status = .pending then some r else none
    | some b =>
      if r.status = .pending then
        if b.created_at < r.created_at then some b else some r
      else some b

/-- `TaskManager.get_next_pending_task`: selects the oldest pending row,
returns `none` when there is none, and otherwise converts the stored type
text with `TaskType(...)` — which raises `ValueError` (modelled as
`.error`) when the text is not a valid enum value — before returning
`(id, type, args)`. -/
def get_next_pending_task (store : TaskStore) :
    Except String (Option (String × TaskType × String)) :=
  match oldest_pending store with
  | none => .ok none
  | some row =>
    match TaskType.ofString row.type with
    | none => .error (row.type ++ " is not a valid TaskType")
    | some tt => .ok (some (row.id, tt, row.args))

/-! ## Embedding of research_daemon.py -/

/-- A Python exception crossing the daemon boundary: its type name and its
`str(...)` message. -/
structure PyExc where
  ty : String
  msg : String
deriving DecidableEq, Repr

/-- Outcome of a Python call: a value, or a raised exception. -/
inductive PyResult (α : Type) where
  | ok (a : α)
  | exc (e : PyExc)
deriving DecidableEq, Repr

/-- Behaviour of the pipeline handlers (`do_research` / `do_generate_reply`)
on a given task: external collaborators, modelled as returning `none` on
success or the raised exception. -/
abbrev Handler := TaskType → String → Option PyExc

/-- `ResearchDaemon.process_next_task`: claim via `get_next_pending_task`
(whose `ValueError` propagates before any status update), then inside
`TaskStatusContext` mark the task running, dispatch to the handler for its
type, and on context exit mark it completed (no result, error `""`) or
failed (error `str(exc)`); `__exit__` returns `None`, so a handler
exception is re-raised after the failed update.  Both `TaskType` members
have a handler branch, so the `else: logger.error(...)` branch is
unreachable.  `now1`/`now2` are the clock at the two updates. -/
def process_next_task (store : TaskStore) (handler : Handler)
    (now1 now2 : Nat) : PyResult Unit × TaskStore :=
  match get_next_pending_task store with
  | .error m => (.exc ⟨"ValueError", m⟩, store)
  | .ok none => (.ok (), store)
  | .ok (some (task_id, task_type, task_args)) =>
    let entered := update_task store task_id .running none "" now1
    match handler task_type task_args with
    | none => (.ok (), update_task entered task_id .completed none "" now2)
    | some e => (.exc e, update_task entered task_id .failed none e.msg now2)

/-- One iteration of `ResearchDaemon.start`: run `process_next_task` under
`try/except Exception`, so any exception is logged and swallowed and the
loop continues with the resulting store. -/
def daemon_step (store : TaskStore) (handler : Handler)
    (now1 now2 : Nat) : TaskStore :=
  (process_next_task store handler now1 now2).2

/-! ## Embedding of libjobsearch.py: the step cache -/

/-- `CacheStep(IntEnum)` from libjobsearch.py. -/
inductive CacheStep where
  | get_messages
  | rag_context
  | basic_research
  | followup_research
  | reply
deriving DecidableEq, Repr

/-- The integer value of a `CacheStep` (it is an `IntEnum`, compared as an
integer by `should_cache_step`). -/
def CacheStep.toNat : CacheStep → Nat
  | .get_messages => 0
  | .rag_context => 1
  | .basic_research => 2
  | .followup_research => 3
  | .reply => 4

/-- `CacheSettings` dataclass. -/
structure CacheSettings where
  no_cache : Bool := false
  clear_cache : List CacheStep := []
  cache_until : Option CacheStep := none
  clear_all_cache : Bool := false
deriving Repr

/-- `CacheSettings.should_cache_step`: false under `no_cache`; true when no
ceiling is set; otherwise true iff `cache_until >= step` as integers. -/
def CacheSettings.should_cache_step (s : CacheSettings) (step : CacheStep) : Bool :=
  if s.no_cache then false
  else match s.cache_until with
    | none => true
    | some u => step.toNat ≤ u.toNat

/-- `CacheSettings.should_clear_cache`: true under `clear_all_cache`;
otherwise, when the `clear_cache` list is non-empty (truthy), membership of
the step in it; otherwise false. -/
def CacheSettings.should_clear_cache (s : CacheSettings) (step : CacheStep) : Bool :=
  if s.clear_all_cache then true
  else if !s.clear_cache.isEmpty then s.clear_cache.contains step
  else false

/-- The diskcache store: keyed values, where a stored value may itself be
Python `None` (`Option.none`). -/
abbrev CacheStore (α : Type) := List (String × Option α)

/-- `cache.get(key)`: returns the stored value, and Python `None` when the
key is absent — indistinguishable from a stored `None`. -/
def cacheGet (c : CacheStore α) (key : String) : Option α :=
  match c.find? (fun kv => kv.1 = key) with
  | none => none
  | some kv => kv.2

/-- `cache.set(key, value)`: upsert. -/
def cacheSet (c : CacheStore α) (key : String) (v : Option α) : CacheStore α :=
  match c.find? (fun kv => kv.1 = key) with
  | none => c ++ [(key, v)]
  | some _ => c.map fun kv => if kv.1 = key then (key, v) else kv

/-- `cache.delete(key)`. -/
def cacheDelete (c : CacheStore α) (key : String) : CacheStore α :=
  c.filter (fun kv => kv.1 ≠ key)

/-- The cache key computed by the `disk_cache` wrapper:
`f"{func.__name__}:{args_str}:{kwargs_str}"` where `args_str`/`kwargs_str`
are the `str(...)` renderings with memory addresses stripped by `re.sub`;
we take the already-normalized renderings as inputs. -/
def cache_key (fname args_str kwargs_str : String) : String :=
  fname ++ ":" ++ args_str ++ ":" ++ kwargs_str

/-- Result of one invocation of a `disk_cache`-wrapped function: the value
returned, the cache store afterwards, and whether the underlying function
was invoked. -/
structure CacheCallResult (α : Type) where
  value : Option α
  store : CacheStore α
  invoked : Bool
deriving Repr

/-- One call of the wrapper produced by `disk_cache(step)` around a function
`f` (taking the normalized argument rendering, returning a possibly-`None`
value): consult the instance settings, delete the key when clearing applies,
read the cache when caching applies, invoke `f` exactly when the read (or
skipped read) produced `None`, and write back when caching applies. -/
def disk_cache_call (settings : CacheSettings) (step : CacheStep)
    (fname args_str kwargs_str : String) (f : String → Option α)
    (c : CacheStore α) : CacheCallResult α :=
  let use_cache := settings.should_cache_step step
  let clear_cache := settings.should_clear_cache step
  let key := cache_key fname args_str kwargs_str
  let c1 := if clear_cache then cacheDelete c key else c
  let cached : Option α := if use_cache then cacheGet c1 key else none
  match cached with
  | some v =>
    { value := some v,
      store := if use_cache then cacheSet c1 key (some v) else c1,
      invoked := false }
  | none =>
    let r := f args_str
    { value := r,
      store := if use_cache then cacheSet c1 key r else c1,
      invoked := true }

/-- Two successive calls of the same wrapped function with identical
arguments: the pair of per-call results, the second starting from the first
call's store. -/
def disk_cache_call2 (settings : CacheSettings) (step : CacheStep)
    (fname args_str kwargs_str : String) (f : String → Option α)
    (c : CacheStore α) : CacheCallResult α × CacheCallResult α :=
  let first := disk_cache_call settings step fname args_str kwargs_str f c
  let second := disk_cache_call settings step fname args_str kwargs_str f first.store
  (first, second)

/-! ## Embedding of libjobsearch.py: the isolated executor -/

/-- What the function shipped to the child process does: returns a value,
raises, or never finishes. -/
inductive ChildOutcome (α : Type) where
  | returns (a : α)
  | raises (e : PyExc)
  | hangs
deriving Repr

/-- `_process_wrapper(func, args, kwargs, result_queue, error_queue)`: on
success puts the result on the result queue; on exception puts
`(type(e), str(e))` on the error queue and then `None` on the result queue;
on a hang puts nothing.  Returned as (result queue, error queue) contents,
with the literal completion-signal `None` modelled as `Option.none`. -/
def process_wrapper (outcome : ChildOutcome α) :
    List (Option α) × List PyExc :=
  match outcome with
  | .returns a => ([some a], [])
  | .raises e => ([none], [e])
  | .hangs => ([], [])

/-- The message of the `TimeoutError` raised by `run_in_process`. -/
def timeout_message (fname : String) (timeout : Nat) : String :=
  "Function " ++ fname ++ " timed out after " ++ toString timeout ++ " seconds"

/-- `run_in_process(func, *args, timeout, **kwargs)`: wait up to `timeout`
for an item on the result queue (the child delivers after `t` time units;
`queue.Empty` becomes a `TimeoutError`); once an item arrives, a pending
error-queue entry is re-raised as `exc_type(exc_msg)` — original type and
message preserved — and otherwise the item itself (which may be Python
`None`) is returned.  The `finally` block only reaps the child process and
does not alter the outcome. -/
def run_in_process (outcome : ChildOutcome α) (t : Nat) (fname : String)
    (timeout : Nat) : PyResult (Option α) :=
  let queues := process_wrapper outcome
  match queues.1 with
  | [] => .exc ⟨"TimeoutError", timeout_message fname timeout⟩
  | item :: _ =>
    if timeout < t then .exc ⟨"TimeoutError", timeout_message fname timeout⟩
    else
      match queues.2 with
      | e :: _ => .exc e
      | [] => .ok item

/-! ## Helper lemmas about the task store -/

theorem oldest_pending_eq_none {s : TaskStore} :
    oldest_pending s = none ↔ ∀ p ∈ s, p.status ≠ TaskStatus.pending := by
  induction s with
  | nil => simp [oldest_pending]
  | cons a rest ih =>
    simp only [oldest_pending]
    cases hrest : oldest_pending rest with
    | none =>
      by_cases ha : a.status = TaskStatus.pending
      · simp [ha]
      · simp only [if_neg ha]
        simp [ha]
        exact ih.mp hrest
    | some b =>
      have hb : ¬ ∀ p ∈ rest, p.status ≠ TaskStatus.pending := by
        intro hall
        rw [ih.mpr hall] at hrest
        exact Option.noConfusion hrest
      constructor
      · intro h
        exfalso
        dsimp only at h
        by_cases ha : a.status = TaskStatus.pending
        · rw [if_pos ha] at h
          by_cases hlt : b.created_at < a.created_at
          · rw [if_pos hlt] at h
            exact Option.noConfusion h
          · rw [if_neg hlt] at h
            exact Option.noConfusion h
        · rw [if_neg ha] at h
          exact Option.noConfusion h
      · intro hall
        exact absurd (fun p hp => hall p (List.mem_cons_of_mem a hp)) hb

theorem oldest_pending_spec {s : TaskStore} {r : TaskRow}
    (h : oldest_pending s = some r) :
    r ∈ s ∧ r.status = TaskStatus.pending ∧
      ∀ p ∈ s, p.status = TaskStatus.pending → r.created_at ≤ p.created_at := by
  induction s generalizing r with
  | nil => simp [oldest_pending] at h
  | cons a rest ih =>
    simp only [oldest_pending] at h
    cases hrest : oldest_pending rest with
    | none =>
      rw [hrest] at h
      have hnone := oldest_pending_eq_none.mp hrest
      by_cases ha : a.status = TaskStatus.pending
      · rw [if_pos ha] at h
        injection h with h
        subst h
        refine ⟨List.mem_cons_self a rest, ha, ?_⟩
        intro p hp hps
        rcases List.mem_cons.mp hp with rfl | hm
        · exact le_refl _
        · exact absurd hps (hnone p hm)
      · rw [if_neg ha] at h
        exact Option.noConfusion h
    | some b =>
      rw [hrest] at h
      dsimp only at h
      obtain ⟨hbmem, hbpend, hbmin⟩ := ih hrest
      by_cases ha : a.status = TaskStatus.pending
      · rw [if_pos ha] at h
        by_cases hlt : b.created_at < a.created_at
        · rw [if_pos hlt] at h
          injection h with h
          subst h
          refine ⟨List.mem_cons_of_mem a hbmem, hbpend, ?_⟩
          intro p hp hps
          rcases List.mem_cons.mp hp with rfl | hm
          · exact Nat.le_of_lt hlt
          · exact hbmin p hm hps
        · rw [if_neg hlt] at h
          injection h with h
          subst h
          refine ⟨List.mem_cons_self a rest, ha, ?_⟩
          intro p hp hps
          rcases List.mem_cons.mp hp with rfl | hm
          · exact le_refl _
          · exact le_trans (Nat.le_of_not_lt hlt) (hbmin p hm hps)
      · rw [if_neg ha] at h
        injection h with h
        subst h
        refine ⟨List.mem_cons_of_mem a hbmem, hbpend, ?_⟩
        intro p hp hps
        rcases List.mem_cons.mp hp with rfl | hm
        · exact absurd hps ha
        · exact hbmin p hm hps

theorem get_task_of_mem {s : TaskStore} {r : TaskRow}
    (hmem : r ∈ s) (hnd : (s.map TaskRow.id).Nodup) :
    get_task s r.id = some r := by
  induction s with
  | nil => cases hmem
  | cons a rest ih =>
    rcases List.mem_cons.mp hmem with rfl | hm
    · simp [get_task]
    · have hane : a.id ≠ r.id := by
        intro heq
        have : r.id ∈ rest.map TaskRow.id := List.mem_map_of_mem _ hm
        rw [List.map_cons] at hnd
        exact (List.nodup_cons.mp hnd).1 (heq ▸ this)
      have hrest : (rest.map TaskRow.id).Nodup := by
        rw [List.map_cons] at hnd
        exact (List.nodup_cons.mp hnd).2
      simp only [get_task, List.find?]
      rw [show (decide (a.id = r.id)) = false from decide_eq_false hane]
      exact ih hm hrest

theorem update_task_id_map (s : TaskStore) (tid : String) (st : TaskStatus)
    (res : Option PyDict) (err : String) (now : Nat) :
    (update_task s tid st res err now).map TaskRow.id = s.map TaskRow.id := by
  simp only [update_task, List.map_map]
  apply List.map_congr_left
  intro a _
  by_cases h : a.id = tid <;> simp [h, updated_row]

theorem update_task_other {s : TaskStore} {p : TaskRow}
    (hp : p ∈ s) (tid : String) (hne : p.id ≠ tid) (st : TaskStatus)
    (res : Option PyDict) (err : String) (now : Nat) :
    p ∈ update_task s tid st res err now := by
  have := List.mem_map_of_mem
    (fun row => if row.id = tid then updated_row row st res err now else row) hp
  simpa [update_task, if_neg hne] using this

theorem update_task_self {s : TaskStore} {r : TaskRow}
    (hmem : r ∈ s) (st : TaskStatus) (res : Option PyDict) (err : String)
    (now : Nat) :
    updated_row r st res err now ∈ update_task s r.id st res err now := by
  have := List.mem_map_of_mem
    (fun row => if row.id = r.id then updated_row row st res err now else row) hmem
  simpa [update_task] using this

theorem update_task_not_mem {s : TaskStore} {tid : String}
    (h : ∀ p ∈ s, p.id ≠ tid) (st : TaskStatus) (res : Option PyDict)
    (err : String) (now : Nat) :
    update_task s tid st res err now = s := by
  unfold update_task
  rw [show s.map (fun row => if row.id = tid then updated_row row st res err now else row)
        = s.map id from List.map_congr_left (fun a ha => by simp [h a ha])]
  exact List.map_id s

theorem updated_row_id (row : TaskRow) (st : TaskStatus) (res : Option PyDict)
    (err : String) (now : Nat) : (updated_row row st res err now).id = row.id := rfl

theorem get_task_update_task {s : TaskStore} {r : TaskRow}
    (hmem : r ∈ s) (hnd : (s.map TaskRow.id).Nodup) (st : TaskStatus)
    (res : Option PyDict) (err : String) (now : Nat) :
    get_task (update_task s r.id st res err now) r.id
      = some (updated_row r st res err now) := by
  have hm2 := update_task_self hmem st res err now
  have hnd2 : ((update_task s r.id st res err now).map TaskRow.id).Nodup := by
    rw [update_task_id_map]
    exact hnd
  have hid := updated_row_id r st res err now
  calc get_task (update_task s r.id st res err now) r.id
      = get_task (update_task s r.id st res err now) (updated_row r st res err now).id := by
        rw [hid]
    _ = some (updated_row r st res err now) := get_task_of_mem hm2 hnd2

theorem get_next_pending_task_of_claim {store : TaskStore} {r : TaskRow}
    {tt : TaskType} (hold : oldest_pending store = some r)
    (hty : TaskType.ofString r.type = some tt) :
    get_next_pending_task store = Except.ok (some (r.id, tt, r.args)) := by
  unfold get_next_pending_task
  rw [hold]
  dsimp only
  rw [hty]

theorem daemon_step_success {store : TaskStore} {handler : Handler}
    {r : TaskRow} {tt : TaskType} (hold : oldest_pending store = some r)
    (hty : TaskType.ofString r.type = some tt)
    (hok : handler tt r.args = none) (now1 now2 : Nat) :
    daemon_step store handler now1 now2 =
      update_task (update_task store r.id TaskStatus.running none "" now1)
        r.id TaskStatus.completed none "" now2 := by
  unfold daemon_step process_next_task
  rw [get_next_pending_task_of_claim hold hty]
  dsimp only
  rw [hok]

theorem daemon_step_failed {store : TaskStore} {handler : Handler}
    {r : TaskRow} {tt : TaskType} {e : PyExc}
    (hold : oldest_pending store = some r)
    (hty : TaskType.ofString r.type = some tt)
    (hexc : handler tt r.args = some e) (now1 now2 : Nat) :
    daemon_step store handler now1 now2 =
      update_task (update_task store r.id TaskStatus.running none "" now1)
        r.id TaskStatus.failed none e.msg now2 := by
  unfold daemon_step process_next_task
  rw [get_next_pending_task_of_claim hold hty]
  dsimp only
  rw [hexc]

theorem get_task_daemon_step_success {store : TaskStore} {handler : Handler}
    {r : TaskRow} {tt : TaskType} (hold : oldest_pending store = some r)
    (hty : TaskType.ofString r.type = some tt)
    (hok : handler tt r.args = none)
    (hnd : (store.map TaskRow.id).Nodup) (now1 now2 : Nat) :
    get_task (daemon_step store handler now1 now2) r.id
      = some (updated_row (updated_row r TaskStatus.running none "" now1)
          TaskStatus.completed none "" now2) := by
  rw [daemon_step_success hold hty hok now1 now2]
  have hmem := (oldest_pending_spec hold).1
  have hm1 := update_task_self hmem TaskStatus.running none "" now1
  have hnd1 : ((update_task store r.id TaskStatus.running none "" now1).map
      TaskRow.id).Nodup := by
    rw [update_task_id_map]
    exact hnd
  have := get_task_update_task hm1 hnd1 TaskStatus.completed none "" now2
  rwa [updated_row_id] at this

theorem get_task_daemon_step_failed {store : TaskStore} {handler : Handler}
    {r : TaskRow} {tt : TaskType} {e : PyExc}
    (hold : oldest_pending store = some r)
    (hty : TaskType.ofString r.type = some tt)
    (hexc : handler tt r.args = some e)
    (hnd : (store.map TaskRow.id).Nodup) (now1 now2 : Nat) :
    get_task (daemon_step store handler now1 now2) r.id
      = some (updated_row (updated_row r TaskStatus.running none "" now1)
          TaskStatus.failed none e.msg now2) := by
  rw [daemon_step_failed hold hty hexc now1 now2]
  have hmem := (oldest_pending_spec hold).1
  have hm1 := update_task_self hmem TaskStatus.running none "" now1
  have hnd1 : ((update_task store r.id TaskStatus.running none "" now1).map
      TaskRow.id).Nodup := by
    rw [update_task_id_map]
    exact hnd
  have := get_task_update_task hm1 hnd1 TaskStatus.failed none e.msg now2
  rwa [updated_row_id] at this

/-! ## Helper lemmas about the step cache -/

theorem cacheGet_delete (c : CacheStore α) (key : String) :
    cacheGet (cacheDelete c key) key = none := by
  unfold cacheGet cacheDelete
  rw [List.find?_eq_none.mpr]
  intro kv hkv
  have := (List.mem_filter.mp hkv).2
  simpa using this

theorem cacheGet_set_self (c : CacheStore α) (key : String) (v : Option α) :
    cacheGet (cacheSet c key v) key = v := by
  unfold cacheGet cacheSet
  cases hf : c.find? (fun kv => kv.1 = key) with
  | none =>
    rw [List.find?_append]
    rw [hf]
    simp
  | some kv =>
    induction c with
    | nil => simp at hf
    | cons a rest ih =>
      by_cases ha : a.1 = key
      · simp [List.find?_cons, ha]
      · rw [List.find?_cons_of_neg _ (by simpa using ha)] at hf
        have := ih hf
        simp only [List.map_cons, if_neg ha]
        rw [List.find?_cons_of_neg _ (by simpa using ha)]
        exact this

theorem cacheSet_mem (c : CacheStore α) (key : String) (v : Option α) :
    (key, v) ∈ cacheSet c key v := by
  unfold cacheSet
  cases hf : c.find? (fun kv => kv.1 = key) with
  | none => simp
  | some kv =>
    dsimp only
    have hkv : kv.1 = key := by
      have := List.find?_some hf
      simpa using this
    have hmem := List.mem_of_find?_eq_some hf
    exact List.mem_map.mpr ⟨kv, hmem, by simp [hkv]⟩

/-! ## Claim theorems -/

/-- C6: when every pending row carries a valid `TaskType` value (which is
all rows `create_task` can produce), `get_next_pending_task` returns `ok
none` exactly when no pending row exists, and otherwise returns the id,
type and args of a pending row whose `created_at` is minimal among pending
rows — so tasks created at t1 < t2 < t3 are claimed in that order
regardless of type. -/
theorem C6_claim_next_pending (store : TaskStore)
    (hvalid : ∀ p ∈ store, p.status = TaskStatus.pending →
      (TaskType.ofString p.type).isSome = true) :
    ((∀ p ∈ store, p.status ≠ TaskStatus.pending) →
        get_next_pending_task store = Except.ok none)
    ∧ (∀ r ∈ store, r.status = TaskStatus.pending →
        ∃ q ∈ store, ∃ tt : TaskType,
          q.status = TaskStatus.pending
          ∧ (∀ p ∈ store, p.status = TaskStatus.pending →
              q.created_at ≤ p.created_at)
          ∧ TaskType.ofString q.type = some tt
          ∧ get_next_pending_task store = Except.ok (some (q.id, tt, q.args))) := by
  constructor
  · intro hnone
    unfold get_next_pending_task
    rw [oldest_pending_eq_none.mpr hnone]
  · intro r hr hrp
    cases hold : oldest_pending store with
    | none => exact absurd hrp (oldest_pending_eq_none.mp hold r hr)
    | some q =>
      obtain ⟨hqmem, hqp, hqmin⟩ := oldest_pending_spec hold
      obtain ⟨tt, htt⟩ := Option.isSome_iff_exists.mp (hvalid q hqmem hqp)
      exact ⟨q, hqmem, tt, hqp, hqmin, htt, get_next_pending_task_of_claim hold htt⟩

/-- C6 witness: on a concrete store holding a `generate_reply` task created
at 1 and a `company_research` task created at 2, the claim instance
produced by `C6_claim_next_pending` holds. -/
theorem C6_witness :
    let S : TaskStore :=
      [⟨"t1", "generate_reply", "a", TaskStatus.pending, none, none, 1, 1⟩,
       ⟨"t2", "company_research", "a", TaskStatus.pending, none, none, 2, 2⟩]
    ((∀ p ∈ S, p.status ≠ TaskStatus.pending) →
        get_next_pending_task S = Except.ok none)
    ∧ (∀ r ∈ S, r.status = TaskStatus.pending →
        ∃ q ∈ S, ∃ tt : TaskType,
          q.status = TaskStatus.pending
          ∧ (∀ p ∈ S, p.status = TaskStatus.pending →
              q.created_at ≤ p.created_at)
          ∧ TaskType.ofString q.type = some tt
          ∧ get_next_pending_task S = Except.ok (some (q.id, tt, q.args))) := by
  intro S
  exact C6_claim_next_pending S (by decide)

/-- C3 as stated is false: `update_task` on an id that identifies no row
runs an UPDATE matching zero rows, which sqlite completes without any
error — the call silently succeeds and the store is unchanged. -/
theorem C3_counterexample :
    update_task [⟨"a", "company_research", "x", TaskStatus.pending, none, none, 0, 0⟩]
        "missing" TaskStatus.completed none "boom" 5
      = [⟨"a", "company_research", "x", TaskStatus.pending, none, none, 0, 0⟩] := by
  decide

/-- C3 amended: `update_task` on an id matching no row is a silent no-op
(the store is returned unchanged, no observable error); on every row whose
id matches, it writes the new status, the serialized result (NULL unless a
non-empty dict is supplied), the error string, and bumps `updated_at`. -/
theorem C3_update_status_amended (store : TaskStore) (task_id : String)
    (status : TaskStatus) (result : Option PyDict) (error : String) (now : Nat) :
    ((∀ p ∈ store, p.id ≠ task_id) →
        update_task store task_id status result error now = store)
    ∧ (∀ r ∈ store, r.id = task_id →
        updated_row r status result error now
          ∈ update_task store task_id status result error now) := by
  constructor
  · intro h
    exact update_task_not_mem h status result error now
  · intro r hr hid
    rw [← hid]
    exact update_task_self hr status result error now

/-- C3 amended witness: instance of `C3_update_status_amended` on a
one-row store, updated under a fresh id. -/
theorem C3_witness :
    let S : TaskStore :=
      [⟨"a", "company_research", "x", TaskStatus.pending, none, none, 0, 0⟩]
    ((∀ p ∈ S, p.id ≠ "b") →
        update_task S "b" TaskStatus.failed none "oops" 7 = S)
    ∧ (∀ r ∈ S, r.id = "b" →
        updated_row r TaskStatus.failed none "oops" 7
          ∈ update_task S "b" TaskStatus.failed none "oops" 7) := by
  intro S
  exact C3_update_status_amended S "b" TaskStatus.failed none "oops" 7

/-- C8 as stated is false: the store enforces no transition discipline.
`update_task` writes any status unconditionally, so a sequence of store
operations moves a task from the terminal `completed` back to `pending`. -/
theorem C8_counterexample :
    ((get_task
        (update_task
          [⟨"a", "company_research", "x", TaskStatus.pending, none, none, 0, 0⟩]
          "a" TaskStatus.completed none "" 1)
        "a").map TaskRow.status = some TaskStatus.completed)
    ∧ ((get_task
        (update_task
          (update_task
            [⟨"a", "company_research", "x", TaskStatus.pending, none, none, 0, 0⟩]
            "a" TaskStatus.completed none "" 1)
          "a" TaskStatus.pending none "" 2)
        "a").map TaskRow.status = some TaskStatus.pending) := by
  decide

/-- C8 amended: the state machine is enforced only by the daemon's
processing path, not by the store.  A task claimed by the daemon moves
`pending` (when selected) → `running` (on context enter) → `completed` or
`failed` (on context exit); but `update_task` itself accepts arbitrary
status writes, including out of a terminal state
(`C8_counterexample`). -/
theorem C8_transitions_amended (store : TaskStore) (handler : Handler)
    (now1 now2 : Nat) {r : TaskRow} {tt : TaskType}
    (hold : oldest_pending store = some r)
    (hty : TaskType.ofString r.type = some tt)
    (hnd : (store.map TaskRow.id).Nodup) :
    r.status = TaskStatus.pending
    ∧ get_task (update_task store r.id TaskStatus.running none "" now1) r.id
        = some (updated_row r TaskStatus.running none "" now1)
    ∧ (updated_row r TaskStatus.running none "" now1).status = TaskStatus.running
    ∧ ((get_task (daemon_step store handler now1 now2) r.id).map TaskRow.status
          = some TaskStatus.completed
       ∨ (get_task (daemon_step store handler now1 now2) r.id).map TaskRow.status
          = some TaskStatus.failed) := by
  obtain ⟨hmem, hpend, _⟩ := oldest_pending_spec hold
  refine ⟨hpend, get_task_update_task hmem hnd _ _ _ _, rfl, ?_⟩
  cases hh : handler tt r.args with
  | none =>
    left
    rw [get_task_daemon_step_success hold hty hh hnd now1 now2]
    rfl
  | some e =>
    right
    rw [get_task_daemon_step_failed hold hty hh hnd now1 now2]
    rfl

/-- C8 amended witness: instance of `C8_transitions_amended` on a one-row
store with an always-succeeding handler. -/
theorem C8_witness :
    let S : TaskStore :=
      [⟨"a", "company_research", "x", TaskStatus.pending, none, none, 0, 0⟩]
    let h : Handler := fun _ _ => none
    (⟨"a", "company_research", "x", TaskStatus.pending, none, none, 0, 0⟩ :
        TaskRow).status = TaskStatus.pending
    ∧ get_task (update_task S "a" TaskStatus.running none "" 1) "a"
        = some (updated_row
            ⟨"a", "company_research", "x", TaskStatus.pending, none, none, 0, 0⟩
            TaskStatus.running none "" 1)
    ∧ (updated_row
        ⟨"a", "company_research", "x", TaskStatus.pending, none, none, 0, 0⟩
        TaskStatus.running none "" 1).status = TaskStatus.running
    ∧ ((get_task (daemon_step S h 1 2) "a").map TaskRow.status
          = some TaskStatus.completed
       ∨ (get_task (daemon_step S h 1 2) "a").map TaskRow.status
          = some TaskStatus.failed) := by
  intro S h
  exact @C8_transitions_amended S h 1 2
    ⟨"a", "company_research", "x", TaskStatus.pending, none, none, 0, 0⟩
    TaskType.company_research (by decide) (by decide) (by decide)

/-- C1 as stated is false: with a pending task of stored type `"bogus"`
(created at 0) ahead of a legitimate pending `company_research` task
(created at 1), two daemon iterations leave the store completely
unchanged — the bogus task is never recorded `failed` (it stays
`pending`), and the younger legitimate task is never claimed. -/
theorem C1_counterexample :
    daemon_step
        (daemon_step
          [⟨"b", "bogus", "x", TaskStatus.pending, none, none, 0, 0⟩,
           ⟨"l", "company_research", "x", TaskStatus.pending, none, none, 1, 1⟩]
          (fun _ _ => none) 1 2)
        (fun _ _ => none) 3 4
      = [⟨"b", "bogus", "x", TaskStatus.pending, none, none, 0, 0⟩,
         ⟨"l", "company_research", "x", TaskStatus.pending, none, none, 1, 1⟩]
    ∧ (get_task
        [⟨"b", "bogus", "x", TaskStatus.pending, none, none, 0, 0⟩,
         ⟨"l", "company_research", "x", TaskStatus.pending, none, none, 1, 1⟩]
        "b").map TaskRow.status = some TaskStatus.pending := by
  decide

/-- C1 amended: a stored task type that is not a valid `TaskType` value is
never claimed at all: `TaskType(...)` raises `ValueError` inside
`get_next_pending_task` before any status update, `process_next_task`
propagates it, and the daemon loop swallows it, so the task stays
`pending` with no error recorded and the store is unchanged — and while
that task remains the oldest pending one, no other pending task is
processed.  (Both `TaskType` members have handler branches, so the
`else: logger.error("Ignoring unsupported task type")` branch of
`process_next_task` is unreachable.) -/
theorem C1_unsupported_type_amended (store : TaskStore) (handler : Handler)
    (now1 now2 : Nat) {r : TaskRow}
    (hold : oldest_pending store = some r)
    (hty : TaskType.ofString r.type = none) :
    process_next_task store handler now1 now2
      = (PyResult.exc ⟨"ValueError", r.type ++ " is not a valid TaskType"⟩, store)
    ∧ daemon_step store handler now1 now2 = store := by
  have h1 : get_next_pending_task store
      = Except.error (r.type ++ " is not a valid TaskType") := by
    unfold get_next_pending_task
    rw [hold]
    dsimp only
    rw [hty]
  constructor
  · unfold process_next_task
    rw [h1]
  · unfold daemon_step process_next_task
    rw [h1]

/-- C1 amended witness: instance of `C1_unsupported_type_amended` on the
concrete bogus-then-legitimate store. -/
theorem C1_witness :
    let S : TaskStore :=
      [⟨"b", "bogus", "x", TaskStatus.pending, none, none, 0, 0⟩,
       ⟨"l", "company_research", "x", TaskStatus.pending, none, none, 1, 1⟩]
    process_next_task S (fun _ _ => none) 1 2
      = (PyResult.exc ⟨"ValueError", "bogus is not a valid TaskType"⟩, S)
    ∧ daemon_step S (fun _ _ => none) 1 2 = S := by
  intro S
  exact @C1_unsupported_type_amended S (fun _ _ => none) 1 2
    ⟨"b", "bogus", "x", TaskStatus.pending, none, none, 0, 0⟩
    (by decide) (by decide)

/-- C2 as stated is false: a `company_research` task whose handler
succeeds is recorded `completed` with `result = NULL` (the daemon's
context manager calls `update_task(task_id, COMPLETED)` passing no
result) and `error = ""` — so neither field is populated in the sense of
the claim, and `error` is the empty string rather than NULL. -/
theorem C2_counterexample :
    (get_task
        (daemon_step
          [⟨"a", "company_research", "x", TaskStatus.pending, none, none, 0, 0⟩]
          (fun _ _ => none) 1 2)
        "a").map (fun q => (q.status, q.result, q.error))
      = some (TaskStatus.completed, none, some "") := by
  decide

/-- C2 amended: a task processed to a terminal state by the daemon always
has `result = NULL`; on success its status is `completed` and its error
column holds the empty string (the `update_task` default), and on handler
failure its status is `failed` and its error column holds `str(exc)`. -/
theorem C2_terminal_fields_amended (store : TaskStore) (handler : Handler)
    (now1 now2 : Nat) {r : TaskRow} {tt : TaskType}
    (hold : oldest_pending store = some r)
    (hty : TaskType.ofString r.type = some tt)
    (hnd : (store.map TaskRow.id).Nodup) :
    ∃ row : TaskRow,
      get_task (daemon_step store handler now1 now2) r.id = some row
      ∧ row.result = none
      ∧ ((handler tt r.args = none ∧ row.status = TaskStatus.completed
            ∧ row.error = some "")
         ∨ (∃ e : PyExc, handler tt r.args = some e
            ∧ row.status = TaskStatus.failed ∧ row.error = some e.msg)) := by
  cases hh : handler tt r.args with
  | none =>
    exact ⟨_, get_task_daemon_step_success hold hty hh hnd now1 now2, rfl,
      Or.inl ⟨rfl, rfl, rfl⟩⟩
  | some e =>
    exact ⟨_, get_task_daemon_step_failed hold hty hh hnd now1 now2, rfl,
      Or.inr ⟨e, rfl, rfl, rfl⟩⟩

/-- C2 amended witness: instance of `C2_terminal_fields_amended` on a
one-row store with an always-succeeding handler. -/
theorem C2_witness :
    let S : TaskStore :=
      [⟨"a", "company_research", "x", TaskStatus.pending, none, none, 0, 0⟩]
    let h : Handler := fun _ _ => none
    ∃ row : TaskRow,
      get_task (daemon_step S h 1 2) "a" = some row
      ∧ row.result = none
      ∧ ((h TaskType.company_research "x" = none
            ∧ row.status = TaskStatus.completed ∧ row.error = some "")
         ∨ (∃ e : PyExc, h TaskType.company_research "x" = some e
            ∧ row.status = TaskStatus.failed ∧ row.error = some e.msg)) := by
  intro S h
  exact @C2_terminal_fields_amended S h 1 2
    ⟨"a", "company_research", "x", TaskStatus.pending, none, none, 0, 0⟩
    TaskType.company_research (by decide) (by decide) (by decide)

/-- C7 as stated is false on its "non-empty" clause: a handler that raises
an exception whose `str(...)` is empty (for example `ValueError()`) gets
its task recorded `failed` with the recorded error equal to the empty
string. -/
theorem C7_counterexample :
    (get_task
        (daemon_step
          [⟨"a", "company_research", "x", TaskStatus.pending, none, none, 0, 0⟩]
          (fun _ _ => some ⟨"ValueError", ""⟩) 1 2)
        "a").map (fun q => (q.status, q.error))
      = some (TaskStatus.failed, some "") := by
  decide

/-- C7 amended: a task whose handler raises is recorded `failed` with the
exception message as its error (non-empty exactly when the message is,
e.g. for the `TimeoutError` propagated out of `run_in_process`), and the
daemon keeps going: the exception re-raised out of the status context is
caught by the polling loop, and every other task is untouched — in
particular every other pending task is still pending and claimable. -/
theorem C7_handler_failure_amended (store : TaskStore) (handler : Handler)
    (now1 now2 : Nat) {r : TaskRow} {tt : TaskType} {e : PyExc}
    (hold : oldest_pending store = some r)
    (hty : TaskType.ofString r.type = some tt)
    (hexc : handler tt r.args = some e)
    (hnd : (store.map TaskRow.id).Nodup) :
    ((get_task (daemon_step store handler now1 now2) r.id).map
        (fun q => (q.status, q.error)) = some (TaskStatus.failed, some e.msg))
    ∧ ∀ p ∈ store, p.id ≠ r.id → p ∈ daemon_step store handler now1 now2 := by
  constructor
  · rw [get_task_daemon_step_failed hold hty hexc hnd now1 now2]
    rfl
  · intro p hp hne
    rw [daemon_step_failed hold hty hexc now1 now2]
    exact update_task_other
      (update_task_other hp r.id hne TaskStatus.running none "" now1)
      r.id hne TaskStatus.failed none e.msg now2

/-- C7 amended witness: instance of `C7_handler_failure_amended` where the
handler raises a `TimeoutError` with a non-empty message and a younger
pending task sits behind the failing one. -/
theorem C7_witness :
    let S : TaskStore :=
      [⟨"a", "company_research", "x", TaskStatus.pending, none, none, 0, 0⟩,
       ⟨"c", "generate_reply", "y", TaskStatus.pending, none, none, 1, 1⟩]
    let h : Handler := fun _ _ => some ⟨"TimeoutError", "timed out"⟩
    ((get_task (daemon_step S h 1 2) "a").map
        (fun q => (q.status, q.error))
      = some (TaskStatus.failed, some "timed out"))
    ∧ ∀ p ∈ S, p.id ≠ "a" → p ∈ daemon_step S h 1 2 := by
  intro S h
  exact @C7_handler_failure_amended S h 1 2
    ⟨"a", "company_research", "x", TaskStatus.pending, none, none, 0, 0⟩
    TaskType.company_research ⟨"TimeoutError", "timed out"⟩
    (by decide) (by decide) (by decide) (by decide)

/-- C4: `run_in_process` returns the child's result when it completes in
time (`.ok (some a)` — the Python return value, possibly `None`, of a run
that delivered within the timeout), raises `TimeoutError` when no result
arrives within the timeout (a hanging child, or delivery after the
deadline), and re-raises a child exception as `exc_type(exc_msg)` —
preserving the original type and message carried over the error queue. -/
theorem C4_run_in_process {α : Type} (outcome : ChildOutcome α)
    (t timeout : Nat) (fname : String) :
    (∀ a : α, outcome = ChildOutcome.returns a → t ≤ timeout →
        run_in_process outcome t fname timeout = PyResult.ok (some a))
    ∧ ((outcome = ChildOutcome.hangs ∨ timeout < t) →
        run_in_process outcome t fname timeout
          = PyResult.exc ⟨"TimeoutError", timeout_message fname timeout⟩)
    ∧ (∀ e : PyExc, outcome = ChildOutcome.raises e → t ≤ timeout →
        run_in_process outcome t fname timeout = PyResult.exc e) := by
  refine ⟨?_, ?_, ?_⟩
  · intro a ha ht
    subst ha
    simp [run_in_process, process_wrapper, Nat.not_lt.mpr ht]
  · intro h
    rcases h with h | h
    · subst h
      rfl
    · cases outcome with
      | returns a => simp [run_in_process, process_wrapper, h]
      | raises e => simp [run_in_process, process_wrapper, h]
      | hangs => rfl
  · intro e he ht
    subst he
    simp [run_in_process, process_wrapper, Nat.not_lt.mpr ht]

/-- C4 witness: concrete runs of `run_in_process` — a child returning 7 in
time, a hanging child, and a child raising `ValueError("boom")` in time. -/
theorem C4_witness :
    run_in_process (ChildOutcome.returns 7) 1 "f" 5 = PyResult.ok (some 7)
    ∧ run_in_process (ChildOutcome.hangs : ChildOutcome Nat) 0 "f" 5
        = PyResult.exc ⟨"TimeoutError", timeout_message "f" 5⟩
    ∧ run_in_process (ChildOutcome.raises ⟨"ValueError", "boom"⟩ : ChildOutcome Nat)
        1 "f" 5 = PyResult.exc ⟨"ValueError", "boom"⟩ := by
  refine ⟨(C4_run_in_process (ChildOutcome.returns 7) 1 5 "f").1 7 rfl (by decide),
    (C4_run_in_process (ChildOutcome.hangs : ChildOutcome Nat) 0 5 "f").2.1
      (Or.inl rfl),
    (C4_run_in_process (ChildOutcome.raises ⟨"ValueError", "boom"⟩ : ChildOutcome Nat)
        1 5 "f").2.2 ⟨"ValueError", "boom"⟩ rfl (by decide)⟩

/-- C5 as stated is false: under the default (caching-enabled, no
clearing) settings, a wrapped function that returns `None` is invoked on
BOTH of two identical calls — the wrapper uses `None` as its miss
sentinel, so the stored `None` reads back as a miss. -/
theorem C5_counterexample :
    (disk_cache_call2 ⟨false, [], none, false⟩ CacheStep.basic_research
        "research" "a" "k" (fun _ => (none : Option Nat)) []).1.invoked = true
    ∧ (disk_cache_call2 ⟨false, [], none, false⟩ CacheStep.basic_research
        "research" "a" "k" (fun _ => (none : Option Nat)) []).2.invoked = true := by
  decide

/-- C5 amended: starting from a cache with no value under the call's key,
two calls of a cache-wrapped stage with identical arguments under a
caching-enabled, non-clearing policy invoke the underlying function
exactly once — on the first call — and the second call returns the first
call's value, PROVIDED that value is not `None`; a `None` result is
re-computed on every call (`C5_counterexample`). -/
theorem C5_cache_idempotence_amended {α : Type} (settings : CacheSettings)
    (step : CacheStep) (fname args_str kwargs_str : String)
    (f : String → Option α) (c : CacheStore α)
    (hcache : settings.should_cache_step step = true)
    (hclear : settings.should_clear_cache step = false)
    (hcold : cacheGet c (cache_key fname args_str kwargs_str) = none)
    (hval : f args_str ≠ none) :
    (disk_cache_call2 settings step fname args_str kwargs_str f c).1.invoked = true
    ∧ (disk_cache_call2 settings step fname args_str kwargs_str f c).2.invoked = false
    ∧ (disk_cache_call2 settings step fname args_str kwargs_str f c).2.value
        = (disk_cache_call2 settings step fname args_str kwargs_str f c).1.value
    ∧ (disk_cache_call2 settings step fname args_str kwargs_str f c).1.value
        = f args_str := by
  cases hf : f args_str with
  | none => exact absurd hf hval
  | some w =>
    refine ⟨?_, ?_, ?_, ?_⟩ <;>
      simp [disk_cache_call2, disk_cache_call, hcache, hclear, hcold, hf,
        cacheGet_set_self]

/-- C5 amended witness: instance of `C5_cache_idempotence_amended` with
default settings, an empty cache, and a function returning 3. -/
theorem C5_witness :
    (disk_cache_call2 ⟨false, [], none, false⟩ CacheStep.basic_research
        "research" "a" "k" (fun _ => (some 3 : Option Nat)) []).1.invoked = true
    ∧ (disk_cache_call2 ⟨false, [], none, false⟩ CacheStep.basic_research
        "research" "a" "k" (fun _ => (some 3 : Option Nat)) []).2.invoked = false
    ∧ (disk_cache_call2 ⟨false, [], none, false⟩ CacheStep.basic_research
        "research" "a" "k" (fun _ => (some 3 : Option Nat)) []).2.value
        = (disk_cache_call2 ⟨false, [], none, false⟩ CacheStep.basic_research
            "research" "a" "k" (fun _ => (some 3 : Option Nat)) []).1.value
    ∧ (disk_cache_call2 ⟨false, [], none, false⟩ CacheStep.basic_research
        "research" "a" "k" (fun _ => (some 3 : Option Nat)) []).1.value
        = (fun _ => (some 3 : Option Nat)) "a" := by
  exact C5_cache_idempotence_amended ⟨false, [], none, false⟩
    CacheStep.basic_research "research" "a" "k" (fun _ => (some 3 : Option Nat))
    [] (by decide) (by decide) (by decide) (by decide)

/-- C9 as stated is false: with `clear_cache = [BASIC_RESEARCH]` (cache
otherwise enabled), a wrapped BASIC_RESEARCH stage invoked twice in one
run is recomputed on BOTH invocations — the wrapper deletes the key at
every call, so the value stored by the first call never serves the
second. -/
theorem C9_counterexample :
    (disk_cache_call2 ⟨false, [CacheStep.basic_research], none, false⟩
        CacheStep.basic_research "research" "a" "k"
        (fun _ => (some 7 : Option Nat)) []).1.invoked = true
    ∧ (disk_cache_call2 ⟨false, [CacheStep.basic_research], none, false⟩
        CacheStep.basic_research "research" "a" "k"
        (fun _ => (some 7 : Option Nat)) []).2.invoked = true := by
  decide

/-- C9 amended: the clear-all flag and the explicit-clear list are
evaluated inside the wrapper at every invocation, not once before the
run: whenever `should_clear_cache` holds for a stage, each call of that
stage deletes its key before reading, so every invocation — the second of
a pair included — re-runs the underlying function.  (The one run-level
wipe is `cache.clear()` in the `libjobsearch` CLI entry point when
`--clear-all-cache` is passed.) -/
theorem C9_clear_per_invocation_amended {α : Type} (settings : CacheSettings)
    (step : CacheStep) (fname args_str kwargs_str : String)
    (f : String → Option α) (c : CacheStore α)
    (hclear : settings.should_clear_cache step = true) :
    (disk_cache_call settings step fname args_str kwargs_str f c).invoked = true
    ∧ (disk_cache_call2 settings step fname args_str kwargs_str f c).2.invoked
        = true := by
  have hone : ∀ d : CacheStore α,
      (disk_cache_call settings step fname args_str kwargs_str f d).invoked
        = true := by
    intro d
    cases hc : settings.should_cache_step step
    · simp [disk_cache_call, hclear, hc, cacheGet_delete]
    · simp [disk_cache_call, hclear, hc, cacheGet_delete]
  exact ⟨hone c, hone _⟩

/-- C9 amended witness: instance of `C9_clear_per_invocation_amended` on
the concrete cleared-but-cache-enabled configuration. -/
theorem C9_witness :
    (disk_cache_call ⟨false, [CacheStep.basic_research], none, false⟩
        CacheStep.basic_research "research" "a" "k"
        (fun _ => (some 7 : Option Nat)) []).invoked = true
    ∧ (disk_cache_call2 ⟨false, [CacheStep.basic_research], none, false⟩
        CacheStep.basic_research "research" "a" "k"
        (fun _ => (some 7 : Option Nat)) []).2.invoked = true := by
  exact C9_clear_per_invocation_amended ⟨false, [CacheStep.basic_research], none, false⟩
    CacheStep.basic_research "research" "a" "k"
    (fun _ => (some 7 : Option Nat)) [] (by decide)

/-- C10: under a caching-enabled, non-clearing policy, starting from a
cache with no value under the key, a wrapped function returning `None` is
invoked on the first call, its `None` IS stored under the key, yet the
second call is invoked again and again returns `None` — the stored `None`
is indistinguishable from a miss, so a `None` result is never served from
cache. -/
theorem C10_none_sentinel {α : Type} (settings : CacheSettings)
    (step : CacheStep) (fname args_str kwargs_str : String)
    (f : String → Option α) (c : CacheStore α)
    (hcache : settings.should_cache_step step = true)
    (hclear : settings.should_clear_cache step = false)
    (hcold : cacheGet c (cache_key fname args_str kwargs_str) = none)
    (hnone : f args_str = none) :
    (disk_cache_call2 settings step fname args_str kwargs_str f c).1.invoked = true
    ∧ (cache_key fname args_str kwargs_str, (none : Option α))
        ∈ (disk_cache_call2 settings step fname args_str kwargs_str f c).1.store
    ∧ (disk_cache_call2 settings step fname args_str kwargs_str f c).2.invoked = true
    ∧ (disk_cache_call2 settings step fname args_str kwargs_str f c).2.value
        = none := by
  refine ⟨?_, ?_, ?_, ?_⟩ <;>
    simp [disk_cache_call2, disk_cache_call, hcache, hclear, hcold, hnone,
      cacheGet_set_self, cacheSet_mem]

/-- C10 witness: instance of `C10_none_sentinel` with default settings, an
empty cache and a constantly-`None` function. -/
theorem C10_witness :
    (disk_cache_call2 ⟨false, [], none, false⟩ CacheStep.reply
        "reply" "a" "k" (fun _ => (none : Option Nat)) []).1.invoked = true
    ∧ (cache_key "reply" "a" "k", (none : Option Nat))
        ∈ (disk_cache_call2 ⟨false, [], none, false⟩ CacheStep.reply
            "reply" "a" "k" (fun _ => (none : Option Nat)) []).1.store
    ∧ (disk_cache_call2 ⟨false, [], none, false⟩ CacheStep.reply
        "reply" "a" "k" (fun _ => (none : Option Nat)) []).2.invoked = true
    ∧ (disk_cache_call2 ⟨false, [], none, false⟩ CacheStep.reply
        "reply" "a" "k" (fun _ => (none : Option Nat)) []).2.value = none := by
  exact C10_none_sentinel ⟨false, [], none, false⟩ CacheStep.reply
    "reply" "a" "k" (fun _ => (none : Option Nat)) []
    (by decide) (by decide) (by decide) (by decide)
